import Mathlib

/-!
Verification of the state-management logic of the blog-article generator
front end (`src/App.tsx`). The React component's state hooks become a
`AppState` record; each `useCallback` handler becomes a pure state
transformer. External effects (the generation service call, `localStorage`,
`JSON.parse`, the clock, `window.confirm`) are passed in as explicit
outcome parameters, so every handler is a total computable function.
-/

/-- Modelled from the spec: the `Article` record of `src/types.ts` (not in
the provided sources): `{ id, createdAt, topic, wordCount, language, tone,
content }`. -/
structure Article where
  id : String
  createdAt : String
  topic : String
  wordCount : String
  language : String
  tone : String
  content : String
deriving Repr, DecidableEq

/-- Modelled from the spec: the payload returned by `generateBlogArticle`
(`src/services/geminiService.ts`, not in the provided sources): the fields
of an `Article` except `id` and `createdAt`, which `handleGenerateArticle`
adds itself. -/
structure ArticleData where
  topic : String
  wordCount : String
  language : String
  tone : String
  content : String
deriving Repr, DecidableEq

/-- The `View` union type: which page is rendered (`src/App.tsx` switch). -/
inductive View where
  | main
  | history
  | about
  | contact
  | disclaimer
  | privacy
  | terms
deriving Repr, DecidableEq

/-- The component state: one field per `useState` hook in `App` (lines
20-28 of `src/App.tsx`). -/
structure AppState where
  topic : String
  wordCount : String
  language : String
  tone : String
  generatedArticle : Option Article
  isLoading : Bool
  error : Option String
  history : List Article
  view : View
deriving Repr, DecidableEq

/-- The initial state: the arguments of the `useState` calls. -/
def initState : AppState :=
  { topic := ""
    wordCount := "500"
    language := "English"
    tone := "Professional"
    generatedArticle := none
    isLoading := false
    error := none
    history := []
    view := View.main }

/-- A value thrown by the generation service: either a JS `Error` carrying
a message (`e instanceof Error`), or any other thrown value. -/
inductive GenError where
  | jsError (message : String)
  | other
deriving Repr, DecidableEq

/-- Line 70 of `src/App.tsx`:
`e instanceof Error ? e.message : 'An unexpected error occurred.'`. -/
def errorMessage : GenError → String
  | GenError.jsError m => m
  | GenError.other => "An unexpected error occurred."

/-- Lines 62-66 of `src/App.tsx`: build the new `Article` from the service
payload plus `Date.now().toString()` and `new Date().toISOString()`,
which are passed in as `nowId` and `nowIso`. -/
def mkArticle (d : ArticleData) (nowId nowIso : String) : Article :=
  { id := nowId
    createdAt := nowIso
    topic := d.topic
    wordCount := d.wordCount
    language := d.language
    tone := d.tone
    content := d.content }

/-- The guard `!topic.trim()` of line 51 of `src/App.tsx`: a string is
falsy (empty) after `trim` exactly when every one of its characters is
whitespace, which also covers the empty string. -/
def isBlank (s : String) : Bool :=
  s.toList.all Char.isWhitespace

/-- `handleGenerateArticle` (lines 50-75 of `src/App.tsx`). The awaited
service call's result is the `outcome` parameter; `nowId` and `nowIso`
stand for the clock reads. Returns the new state together with a flag
recording whether a request was issued to the service. -/
def handleGenerateArticle (s : AppState) (outcome : Except GenError ArticleData)
    (nowId nowIso : String) : AppState × Bool :=
  if isBlank s.topic then
    ({ s with error := some "Please enter a blog topic or keyword." }, false)
  else
    let s1 := { s with isLoading := true, error := none, generatedArticle := none }
    match outcome with
    | Except.ok d =>
        let newArticle := mkArticle d nowId nowIso
        let s2 := { s1 with generatedArticle := some newArticle
                            history := newArticle :: s1.history.take 49 }
        ({ s2 with isLoading := false }, true)
    | Except.error e =>
        let s2 := { s1 with error := some ("Error: " ++ errorMessage e) }
        ({ s2 with isLoading := false }, true)

/-- `handleSelectFromHistory` (lines 77-81 of `src/App.tsx`). The
`window.scrollTo` call has no state effect. -/
def handleSelectFromHistory (s : AppState) (article : Article) : AppState :=
  { s with generatedArticle := some article, view := View.main }

/-- `handleDeleteFromHistory` (lines 83-85 of `src/App.tsx`):
`setHistory(prev => prev.filter(item => item.id !== id))`. -/
def handleDeleteFromHistory (s : AppState) (id : String) : AppState :=
  { s with history := s.history.filter (fun item => item.id != id) }

/-- `handleClearHistory` (lines 87-96 of `src/App.tsx`). The result of
`window.confirm` is the `confirmed` parameter. -/
def handleClearHistory (s : AppState) (confirmed : Bool) : AppState :=
  if confirmed then
    let s1 := { s with history := [] }
    if s1.view = View.history then
      s1
    else
      { s1 with generatedArticle := none }
  else
    s

/-- Outcome of the startup interaction with `localStorage` and
`JSON.parse` inside the mount effect (lines 30-40 of `src/App.tsx`):
the `getItem` call throws; or it yields a falsy value (absent key or the
empty string), skipping the parse; or `JSON.parse` throws on the raw
string; or the parse succeeds with a decoded list. -/
inductive LoadOutcome where
  | readThrows
  | absent
  | parseThrows (raw : String)
  | parsed (value : List Article)
deriving Repr

/-- The mount effect (lines 30-40 of `src/App.tsx`). Returns the new state
and whether `console.error` logged a failure. `setHistory([])` runs in the
`catch` branch; a successful parse installs the decoded value verbatim. -/
def loadHistory (s : AppState) : LoadOutcome → AppState × Bool
  | LoadOutcome.readThrows => ({ s with history := [] }, true)
  | LoadOutcome.absent => (s, false)
  | LoadOutcome.parseThrows _ => ({ s with history := [] }, true)
  | LoadOutcome.parsed value => ({ s with history := value }, false)

/-- A concrete article used in witnesses and counterexamples. -/
def arbArticle : Article :=
  { id := "1"
    createdAt := "2026-01-01T00:00:00.000Z"
    topic := "ai"
    wordCount := "500"
    language := "English"
    tone := "Professional"
    content := "body" }

/-- A second concrete article with a different id. -/
def arbArticle2 : Article :=
  { arbArticle with id := "2", content := "body2" }

/-- A third concrete article with a different id. -/
def arbArticle3 : Article :=
  { arbArticle with id := "3", content := "body3" }

/-- Concrete service payload used in witnesses. -/
def arbData : ArticleData :=
  { topic := "ai"
    wordCount := "500"
    language := "English"
    tone := "Professional"
    content := "body" }

/-- A state with a non-blank topic and a displayed article. -/
def stReady : AppState :=
  { initState with topic := "ai", generatedArticle := some arbArticle }

/-- Claim C4: for every topic that is empty or whitespace-only, invoking
`handleGenerateArticle` issues no request to the generation service, sets
the please-enter-a-topic error message, and leaves all other state
unchanged. -/
theorem blank_topic_blocks_request (s : AppState)
    (o : Except GenError ArticleData) (nowId nowIso : String)
    (h : isBlank s.topic = true) :
    handleGenerateArticle s o nowId nowIso =
      ({ s with error := some "Please enter a blog topic or keyword." }, false) := by
  simp [handleGenerateArticle, h]

/-- Witness for C4 at the whitespace topic `"   "`. -/
theorem blank_topic_blocks_request_witness :
    (isBlank "   " = true) ∧
    handleGenerateArticle { initState with topic := "   " }
        (Except.ok arbData) "9" "t" =
      ({ initState with topic := "   ",
                        error := some "Please enter a blog topic or keyword." }, false) :=
  ⟨by decide,
   blank_topic_blocks_request { initState with topic := "   " }
     (Except.ok arbData) "9" "t" (by decide)⟩

/-- Claim C6: `handleClearHistory` empties the history when the user
confirms and leaves the whole state unchanged when the user declines. -/
theorem clear_history_confirm_behaviour (s : AppState) :
    (handleClearHistory s true).history = [] ∧
    handleClearHistory s false = s := by
  refine ⟨?_, rfl⟩
  by_cases h : s.view = View.history <;> simp [handleClearHistory, h]

/-- Claim C7: selecting an article from history sets it as the displayed
article and switches the view to main. -/
theorem select_history_displays_article (s : AppState) (a : Article) :
    (handleSelectFromHistory s a).generatedArticle = some a ∧
    (handleSelectFromHistory s a).view = View.main :=
  ⟨rfl, rfl⟩

/-- Claim C8: when the startup read or parse of the stored history throws,
the history is set to the empty list and the failure is logged (the load
function is total, so the application proceeds normally). -/
theorem load_failure_empties_history (s : AppState) :
    (loadHistory s LoadOutcome.readThrows).1.history = [] ∧
    (loadHistory s LoadOutcome.readThrows).2 = true ∧
    ∀ raw : String,
      (loadHistory s (LoadOutcome.parseThrows raw)).1.history = [] ∧
      (loadHistory s (LoadOutcome.parseThrows raw)).2 = true :=
  ⟨rfl, rfl, fun _ => ⟨rfl, rfl⟩⟩

/-- Claim C9: a confirmed clear sets the displayed article to null exactly
when the current view is not the history view; on the history view the
displayed article is left unchanged. -/
theorem clear_history_display_effect (s : AppState) :
    (handleClearHistory s true).generatedArticle =
      (if s.view = View.history then s.generatedArticle else none) := by
  by_cases h : s.view = View.history <;> simp [handleClearHistory, h]

/-- Claim C10: the startup load installs the parsed stored value into the
history verbatim, with no truncation; in particular a stored array of 51
items yields an in-memory history of more than 50 entries. -/
theorem load_installs_verbatim :
    (∀ (s : AppState) (l : List Article),
        (loadHistory s (LoadOutcome.parsed l)).1.history = l) ∧
    ∃ l : List Article, 50 < l.length ∧
      50 < (loadHistory initState (LoadOutcome.parsed l)).1.history.length := by
  refine ⟨fun s l => rfl, List.replicate 51 arbArticle, ?_, ?_⟩ <;>
    simp [loadHistory]

/-- Claim C3: a successful generation prepends exactly one new article to
the history (head is the new article, tail is the old history up to the
49-entry cap), the error ends null, and below the cap the length grows by
exactly one with all prior entries preserved. -/
theorem success_prepends_article (s : AppState) (d : ArticleData)
    (nowId nowIso : String) (h : isBlank s.topic = false) :
    ((handleGenerateArticle s (Except.ok d) nowId nowIso).1.history =
        mkArticle d nowId nowIso :: s.history.take 49) ∧
    (handleGenerateArticle s (Except.ok d) nowId nowIso).1.error = none ∧
    (s.history.length ≤ 49 →
      (handleGenerateArticle s (Except.ok d) nowId nowIso).1.history =
          mkArticle d nowId nowIso :: s.history ∧
      (handleGenerateArticle s (Except.ok d) nowId nowIso).1.history.length =
          s.history.length + 1) := by
  refine ⟨by simp [handleGenerateArticle, h], by simp [handleGenerateArticle, h], ?_⟩
  intro hlen
  have ht : s.history.take 49 = s.history := List.take_of_length_le hlen
  constructor
  · simp [handleGenerateArticle, h, ht]
  · simp [handleGenerateArticle, h, ht]

/-- Witness for C3 at a concrete one-article state. -/
theorem success_prepends_article_witness :
    (isBlank stReady.topic = false) ∧
    ((handleGenerateArticle stReady (Except.ok arbData) "9" "t").1.history =
        mkArticle arbData "9" "t" :: stReady.history.take 49) :=
  ⟨by decide, (success_prepends_article stReady arbData "9" "t" (by decide)).1⟩

/-- Counterexample to claim C2 as stated: with an article on display, a
failed generation does not leave `generatedArticle` unchanged — line 58 of
`src/App.tsx` resets it to null before the request. -/
theorem gen_failure_clears_displayed_article :
    (handleGenerateArticle stReady
        (Except.error (GenError.jsError "boom")) "9" "t").1.generatedArticle ≠
      stReady.generatedArticle := by
  decide

/-- Claim C2 (amended): on a failed generation the error is set to the
formatted string, the loading flag ends false, the history is unchanged,
but the displayed article ends null (it is cleared when the request
starts), so a previously displayed article is lost, not preserved. -/
theorem gen_failure_state (s : AppState) (e : GenError) (nowId nowIso : String)
    (h : isBlank s.topic = false) :
    ((handleGenerateArticle s (Except.error e) nowId nowIso).1.error =
        some ("Error: " ++ errorMessage e)) ∧
    (handleGenerateArticle s (Except.error e) nowId nowIso).1.isLoading = false ∧
    (handleGenerateArticle s (Except.error e) nowId nowIso).1.generatedArticle = none ∧
    (handleGenerateArticle s (Except.error e) nowId nowIso).1.history = s.history := by
  refine ⟨?_, ?_, ?_, ?_⟩ <;> simp [handleGenerateArticle, h]

/-- Witness for C2 (amended) at a concrete failing call. -/
theorem gen_failure_state_witness :
    (isBlank stReady.topic = false) ∧
    ((handleGenerateArticle stReady
        (Except.error (GenError.jsError "boom")) "9" "t").1.error =
      some ("Error: " ++ errorMessage (GenError.jsError "boom"))) :=
  ⟨by decide,
   (gen_failure_state stReady (GenError.jsError "boom") "9" "t" (by decide)).1⟩

/-- Counterexample to claim C1 as stated: the startup load is one of the
listed operations, yet loading a stored array of 51 articles yields a
history of 51 entries, exceeding the 50-entry cap. -/
theorem load_breaks_history_cap :
    ¬ (loadHistory initState
        (LoadOutcome.parsed (List.replicate 51 arbArticle))).1.history.length ≤ 50 := by
  simp [loadHistory]

/-- Claim C1 (amended): generation, deletion and clear keep the history at
no more than 50 entries — a successful generation yields exactly
`min (old + 1) 50` entries and, at a full 50-entry history, the new entry
evicts the oldest (last) one; deletion and clear never grow the history.
The startup load, however, installs the stored list verbatim and is not
covered by the cap. -/
theorem history_cap_amended :
    (∀ (s : AppState) (d : ArticleData) (nowId nowIso : String),
        isBlank s.topic = false →
        (handleGenerateArticle s (Except.ok d) nowId nowIso).1.history.length =
            min (s.history.length + 1) 50 ∧
        (handleGenerateArticle s (Except.ok d) nowId nowIso).1.history.length ≤ 50) ∧
    (∀ (s : AppState) (id : String),
        (handleDeleteFromHistory s id).history.length ≤ s.history.length) ∧
    (∀ (s : AppState) (c : Bool),
        (handleClearHistory s c).history.length ≤ s.history.length) ∧
    (∀ (s : AppState) (d : ArticleData) (nowId nowIso : String),
        isBlank s.topic = false → s.history.length = 50 →
        (handleGenerateArticle s (Except.ok d) nowId nowIso).1.history =
            mkArticle d nowId nowIso :: s.history.dropLast) := by
  refine ⟨?_, ?_, ?_, ?_⟩
  · intro s d nowId nowIso h
    have hl : (handleGenerateArticle s (Except.ok d) nowId nowIso).1.history.length =
        min 49 s.history.length + 1 := by
      simp [handleGenerateArticle, h]
    omega
  · intro s id
    exact List.length_filter_le _ _
  · intro s c
    cases c with
    | false => exact Nat.le_refl _
    | true =>
        by_cases h : s.view = View.history <;>
          simp [handleClearHistory, h]
  · intro s d nowId nowIso h hlen
    have hd : s.history.dropLast = s.history.take 49 := by
      rw [List.dropLast_eq_take, hlen]
    simp [handleGenerateArticle, h, hd]

/-- Witness for C1 (amended) at a concrete full 50-entry history. -/
theorem history_cap_amended_witness :
    (isBlank stReady.topic = false) ∧
    ((handleGenerateArticle
        { stReady with history := List.replicate 50 arbArticle }
        (Except.ok arbData) "9" "t").1.history.length =
      min ((List.replicate 50 arbArticle).length + 1) 50) :=
  ⟨by decide,
   (history_cap_amended.1 { stReady with history := List.replicate 50 arbArticle }
      arbData "9" "t" (by decide)).1⟩

/-- A state whose history holds two distinct articles sharing the id
`"1"`. -/
def stDup : AppState :=
  { initState with history := [arbArticle, { arbArticle2 with id := "1" }] }

/-- Counterexample to claim C5 as stated: deleting id `"1"` from a
two-entry history whose entries both carry id `"1"` removes both entries,
not only one, so the result is not the original list minus exactly one
entry. -/
theorem delete_removes_duplicate_ids :
    (handleDeleteFromHistory stDup "1").history.length ≠
      stDup.history.length - 1 := by
  decide

/-- Claim C5 (amended): `handleDeleteFromHistory` removes every entry
whose id matches; when the history's ids are pairwise distinct, deleting
the id of an entry removes exactly that entry and preserves every other
entry in order. -/
theorem delete_removes_exactly_one (s : AppState) (l1 l2 : List Article)
    (a : Article) (hs : s.history = l1 ++ a :: l2)
    (hnd : (s.history.map Article.id).Nodup) :
    (handleDeleteFromHistory s a.id).history = l1 ++ l2 := by
  have goal : (l1 ++ a :: l2).filter (fun item => item.id != a.id) = l1 ++ l2 := by
    rw [hs] at hnd
    simp only [List.map_append, List.map_cons, List.nodup_append,
      List.nodup_cons] at hnd
    obtain ⟨h1, ⟨ha2, h2⟩, hdisj⟩ := hnd
    have e1 : l1.filter (fun item => item.id != a.id) = l1 := by
      apply List.filter_eq_self.mpr
      intro x hx
      simp only [bne_iff_ne, ne_eq]
      intro hcontra
      exact hdisj (List.mem_map_of_mem Article.id hx)
        (hcontra ▸ List.mem_cons_self x.id (l2.map Article.id))
    have e2 : l2.filter (fun item => item.id != a.id) = l2 := by
      apply List.filter_eq_self.mpr
      intro x hx
      simp only [bne_iff_ne, ne_eq]
      intro hcontra
      exact ha2 (hcontra ▸ List.mem_map_of_mem Article.id hx)
    rw [List.filter_append, e1, List.filter_cons]
    simp [e2]
  simp only [handleDeleteFromHistory, hs]
  exact goal

/-- Witness for C5 (amended): deleting the middle of three distinct-id
articles removes exactly that article. -/
theorem delete_removes_exactly_one_witness :
    (handleDeleteFromHistory
        { initState with history := [arbArticle, arbArticle2, arbArticle3] }
        arbArticle2.id).history = [arbArticle, arbArticle3] :=
  delete_removes_exactly_one
    { initState with history := [arbArticle, arbArticle2, arbArticle3] }
    [arbArticle] [arbArticle3] arbArticle2 rfl (by decide)
